import Mathlib

/-!
Shallow embedding of `src/app.py` (dependency-reasoning chatbot).

The Python module consists of four module-level lookup tables
(`RELEASE_METADATA`, `KNOWN_ISSUES`, `INTERNAL_INCIDENTS`,
`COMPATIBILITY_MATRIX`), pure helper functions (`parse_version`,
`get_bump_type`, `check_security_issues`, `check_internal_incidents`,
`check_compatibility`), the composer `explain_version_choice`, the
formatter `format_explanation`, and a Streamlit `main` whose submit
branch we model as `handle_submit`.

Modelling conventions:
- Python `dict` literals become ordered association lists
  (`List (String × _)`), preserving declaration order (Python 3.7+ dicts
  iterate in insertion order), with `List.lookup` for `.get`.
- Python `str` becomes `String`; character-level operations
  (`split('.')`, `int(...)`, `.lower()`, substring `in`) are modelled on
  `List Char` so that everything kernel-evaluates.
- Python `int(token)` is modelled by `pyIntChars`: strip surrounding
  whitespace, optional single sign, then a nonempty digit run in which
  single underscores may separate digits; anything else fails (`none`).
- The bare `except:` in `parse_version` makes any component failure
  collapse the whole result to `(0, 0, 0)`.
- The mojibake characters in the decorated message strings are copied
  byte-for-byte from the source file via `\u` escapes.
-/

namespace DepBot

/-- Python `s.split('.')` on a character list: the separator `'.'` ends the
current token; the result always has at least one (possibly empty) token. -/
def splitOnDot : List Char → List (List Char)
  | [] => [[]]
  | c :: rest =>
    if c = '.' then [] :: splitOnDot rest
    else
      match splitOnDot rest with
      | [] => [[c]]
      | x :: xs => (c :: x) :: xs

/-- Numeric value of an ASCII digit character. -/
def digitVal (c : Char) : Nat := c.toNat - 48

/-- Digit run after the first digit: digits, with single underscores allowed
between digits (Python `int` literal grammar); anything else fails. -/
def pyDigitsAux : List Char → Nat → Option Nat
  | [], acc => some acc
  | ['_'], _ => none
  | '_' :: c :: rest, acc =>
      if c.isDigit then pyDigitsAux rest (acc * 10 + digitVal c) else none
  | c :: rest, acc =>
      if c.isDigit then pyDigitsAux rest (acc * 10 + digitVal c) else none

/-- Nonempty digit run (must start with a digit). -/
def pyDigits : List Char → Option Nat
  | [] => none
  | c :: rest => if c.isDigit then pyDigitsAux rest (digitVal c) else none

/-- Strip leading and trailing whitespace, as Python `int` does before
parsing. -/
def stripChars (cs : List Char) : List Char :=
  ((cs.dropWhile Char.isWhitespace).reverse.dropWhile Char.isWhitespace).reverse

/-- Model of Python `int(token)` on a token given as a character list:
`none` models the `ValueError` that `parse_version` catches. -/
def pyIntChars (cs : List Char) : Option Int :=
  match stripChars cs with
  | '+' :: rest => (pyDigits rest).map (fun n => (n : Int))
  | '-' :: rest => (pyDigits rest).map (fun n => -(n : Int))
  | rest => (pyDigits rest).map (fun n => (n : Int))

/-- `parse_version` (src/app.py lines 116-125): split on `'.'`, convert the
first three components with `int`, missing trailing components default to 0,
and the bare `except:` turns any conversion failure into `(0, 0, 0)`. -/
def parse_version (version : String) : Int × Int × Int :=
  let parts := splitOnDot version.data
  match pyIntChars (parts.getD 0 []),
        (if parts.length > 1 then pyIntChars (parts.getD 1 []) else some 0),
        (if parts.length > 2 then pyIntChars (parts.getD 2 []) else some 0) with
  | some major, some minor, some patch => (major, minor, patch)
  | _, _, _ => (0, 0, 0)

/-- `get_bump_type` (src/app.py lines 127-139). -/
def get_bump_type (old_version new_version : String) : String :=
  let old := parse_version old_version
  let new := parse_version new_version
  if new.1 > old.1 then "major"
  else if new.2.1 > old.2.1 then "minor"
  else if new.2.2 > old.2.2 then "patch"
  else "unknown"

/-- One release-metadata record (`RELEASE_METADATA` leaf dict). -/
structure ReleaseMeta where
  notes : String
  bump_type : String
  release_date : String
deriving DecidableEq

/-- `RELEASE_METADATA` (src/app.py lines 11-63). -/
def RELEASE_METADATA : List (String × List (String × ReleaseMeta)) :=
  [("auth-lib",
    [("2.1.0", ⟨"Security patches for token validation. Performance improvements in JWT parsing.", "minor", "2024-01-15"⟩),
     ("2.2.0", ⟨"Added OAuth2 refresh token support. Fixed memory leak in session management.", "minor", "2024-02-20"⟩),
     ("3.0.0", ⟨"BREAKING: Removed deprecated API endpoints. New authentication flow required. Migration guide available.", "major", "2024-03-10"⟩)]),
   ("payments-core",
    [("3.1.0", ⟨"Bug fixes for currency conversion edge cases. Improved error handling.", "minor", "2024-01-22"⟩),
     ("3.2.0", ⟨"Added support for new payment methods. Enhanced transaction logging.", "minor", "2024-02-05"⟩),
     ("4.0.0", ⟨"BREAKING: New payment gateway integration. API signature changes. Requires database migration.", "major", "2024-03-18"⟩)]),
   ("logging-lib",
    [("1.5.0", ⟨"Fixed log rotation issue. Added structured logging support.", "minor", "2024-01-10"⟩),
     ("1.5.1", ⟨"Critical bug fix for log file corruption under high load.", "patch", "2024-01-25"⟩),
     ("2.0.0", ⟨"BREAKING: Changed default log format. New configuration schema required.", "major", "2024-02-28"⟩)])]

/-- `KNOWN_ISSUES` (src/app.py lines 66-80). -/
def KNOWN_ISSUES : List (String × List (String × List String)) :=
  [("auth-lib",
    [("2.0.0", ["CVE-2024-001: Token validation bypass vulnerability"]),
     ("2.0.5", ["CVE-2024-001: Token validation bypass vulnerability"]),
     ("2.1.0", [])]),
   ("payments-core",
    [("3.0.0", ["CVE-2024-002: Potential race condition in transaction processing"]),
     ("3.1.0", [])]),
   ("logging-lib",
    [("1.4.0", ["CVE-2024-003: Log injection vulnerability"]),
     ("1.5.0", [])])]

/-- `INTERNAL_INCIDENTS` (src/app.py lines 83-93). -/
def INTERNAL_INCIDENTS : List (String × List (String × List String)) :=
  [("payments-core",
    [("3.2.0", ["Incident #142: Memory leak detected in production. Root cause: improper resource cleanup in transaction handler."])]),
   ("auth-lib",
    [("2.0.0", ["Incident #89: Authentication failures during peak load. Resolved in 2.1.0."])]),
   ("logging-lib",
    [("1.4.5", ["Incident #156: Log file corruption causing service restarts. Fixed in 1.5.1."])])]

/-- `COMPATIBILITY_MATRIX` (src/app.py lines 96-110); declaration order of the
services matters for the context-narrowing scan. -/
def COMPATIBILITY_MATRIX : List (String × List (String × String)) :=
  [("Checkout Service",
    [("payments-core", "3.2.0"), ("auth-lib", "2.2.0"), ("logging-lib", "1.5.1")]),
   ("User Service",
    [("auth-lib", "3.0.0"), ("logging-lib", "2.0.0")]),
   ("API Gateway",
    [("auth-lib", "2.2.0"), ("logging-lib", "1.5.1")])]

/-- Python `TABLE.get(pkg, \x7b\x7d).get(ver, [])` for the two issue-shaped
tables. -/
def tableGet (table : List (String × List (String × List String)))
    (pkg ver : String) : List String :=
  (((table.lookup pkg).getD []).lookup ver).getD []

/-- `check_security_issues` (src/app.py lines 141-146). -/
def check_security_issues (package old_version new_version : String) :
    List String × List String :=
  (tableGet KNOWN_ISSUES package old_version,
   tableGet KNOWN_ISSUES package new_version)

/-- `check_internal_incidents` (src/app.py lines 148-153). -/
def check_internal_incidents (package old_version new_version : String) :
    List String × List String :=
  (tableGet INTERNAL_INCIDENTS package old_version,
   tableGet INTERNAL_INCIDENTS package new_version)

/-- Python `.lower()` on a character list (ASCII case mapping; all service
names in the table are ASCII). -/
def toLowerChars (cs : List Char) : List Char := cs.map Char.toLower

/-- Python substring membership `needle in hay` on character lists. -/
def containsSub (needle : List Char) : List Char → Bool
  | [] => needle.isEmpty
  | c :: rest => List.isPrefixOf needle (c :: rest) || containsSub needle rest

/-- The context-narrowing loop of `check_compatibility` (src/app.py lines
161-168): walk the service table in declaration order; at the FIRST service
whose lowercased name occurs in the lowercased context, stop (the `break` is
inside the name-match branch); the entry is appended only when that service
declares the package, and no version comparison happens here. -/
def contextScan (package : String) (context_lower : List Char) :
    List (String × List (String × String)) → List String
  | [] => []
  | (service_name, packages) :: rest =>
    if containsSub (toLowerChars service_name.data) context_lower then
      match packages.lookup package with
      | some service_version => [service_name ++ " uses " ++ service_version]
      | none => []
    else contextScan package context_lower rest

/-- The full-scan loop of `check_compatibility` (src/app.py lines 171-182):
every service declaring the package is classified by comparing major
components of the candidate new version and the recorded version of the service;
a strictly lower candidate major falls through both branches. -/
def scanServices (package new_version : String) :
    List (String × List (String × String)) → List String × List String
  | [] => ([], [])
  | (service_name, packages) :: rest =>
    let r := scanServices package new_version rest
    match packages.lookup package with
    | none => r
    | some service_version =>
      let new_ver := parse_version new_version
      let service_ver := parse_version service_version
      if new_ver.1 = service_ver.1 then
        ((service_name ++ " uses " ++ service_version) :: r.1, r.2)
      else if new_ver.1 > service_ver.1 then
        (r.1, (service_name ++ " uses " ++ service_version ++ " (major version mismatch)") :: r.2)
      else r

/-- Result of `check_compatibility`. -/
structure CompatInfo where
  compatible : List String
  incompatible : List String
deriving DecidableEq

/-- `check_compatibility` (src/app.py lines 155-186): the context branch runs
first (only when the context is present and non-empty, Python truthiness),
then the full scan appends to the same lists. -/
def check_compatibility (package new_version : String)
    (context : Option String) : CompatInfo :=
  let ctxList :=
    match context with
    | some ctx =>
      if ctx ≠ "" then contextScan package (toLowerChars ctx.data) COMPATIBILITY_MATRIX
      else []
    | none => []
  let scan := scanServices package new_version COMPATIBILITY_MATRIX
  { compatible := ctxList ++ scan.1, incompatible := scan.2 }

/-- The structured result of `explain_version_choice`. -/
structure ExplanationResult where
  summary : String
  risk_reasoning : List String
  security_reasoning : List String
  compatibility_reasoning : List String
  release_notes : String
  bump_type : String
  sources : List String
deriving DecidableEq

/-- The release-notes lookup of src/app.py line 214:
`RELEASE_METADATA.get(package, \x7b\x7d).get(new_version, \x7b\x7d).get("notes", "No release notes available.")`. -/
def lookupReleaseNotes (package new_version : String) : String :=
  match ((RELEASE_METADATA.lookup package).getD []).lookup new_version with
  | some m => m.notes
  | none => "No release notes available."

/-- `explain_version_choice` (src/app.py lines 192-289). -/
def explain_version_choice (package old_version new_version ecosystem : String)
    (context : Option String) : ExplanationResult :=
  let bump_type := get_bump_type old_version new_version
  let release_notes := lookupReleaseNotes package new_version
  let sec := check_security_issues package old_version new_version
  let old_security_issues := sec.1
  let new_security_issues := sec.2
  let inc := check_internal_incidents package old_version new_version
  let old_incidents := inc.1
  let new_incidents := inc.2
  let compat_info := check_compatibility package new_version context
  let sources :=
    (if release_notes ≠ "No release notes available." then
      ["Release notes for " ++ package ++ " " ++ new_version] else [])
    ++ (if old_security_issues ≠ [] then
      ["Security advisories for " ++ package ++ " " ++ old_version] else [])
    ++ (if old_incidents ≠ [] then
      ["Internal incident reports for " ++ package ++ " " ++ old_version] else [])
    ++ (if compat_info.compatible ≠ [] ∨ compat_info.incompatible ≠ [] then
      ["Internal compatibility matrix"] else [])
  let summary :=
    if bump_type = "major" then
      "Major version upgrade from " ++ old_version ++ " to " ++ new_version ++ ". This may include breaking changes."
    else if bump_type = "minor" then
      "Minor version upgrade from " ++ old_version ++ " to " ++ new_version ++ ". New features and improvements expected."
    else
      "Patch upgrade from " ++ old_version ++ " to " ++ new_version ++ ". Bug fixes and security patches."
  let risk_reasoning :=
    [if bump_type = "major" then
      "This is a major version upgrade, which typically includes breaking changes. Review the release notes carefully and plan for migration."
    else if bump_type = "minor" then
      "This is a minor version upgrade, which should be backward compatible but may introduce new features."
    else
      "This is a patch upgrade, which should be low risk and focused on bug fixes."]
    ++ (if old_incidents ≠ [] then
      ["‚ö†Ô∏è The old version (" ++ old_version ++ ") has known internal incidents that may be resolved in the new version."] else [])
    ++ (if new_incidents ≠ [] then
      ["‚ö†Ô∏è WARNING: The new version (" ++ new_version ++ ") has known internal incidents. Consider investigating before upgrading."] else [])
  let security_reasoning :=
    (if old_security_issues ≠ [] then
      ["üîí The old version (" ++ old_version ++ ") has known security vulnerabilities: " ++ String.intercalate ", " old_security_issues]
      ++ (if new_security_issues = [] then
        ["‚úÖ The new version (" ++ new_version ++ ") appears to address these security issues."] else [])
    else
      ["‚úÖ No known security issues found for version " ++ old_version ++ "."])
    ++ (if new_security_issues ≠ [] then
      ["‚ö†Ô∏è WARNING: The new version (" ++ new_version ++ ") has known security issues: " ++ String.intercalate ", " new_security_issues] else [])
  let compatibility_reasoning :=
    (if compat_info.compatible ≠ [] then
      ["‚úÖ Compatible versions found: " ++ String.intercalate ", " compat_info.compatible] else [])
    ++ (if compat_info.incompatible ≠ [] then
      ["‚ö†Ô∏è Potential compatibility concerns: " ++ String.intercalate ", " compat_info.incompatible] else [])
    ++ (if compat_info.compatible = [] ∧ compat_info.incompatible = [] then
      ["‚ÑπÔ∏è No compatibility data found for other services using " ++ package ++ "."] else [])
  { summary := summary
    risk_reasoning := risk_reasoning
    security_reasoning := security_reasoning
    compatibility_reasoning := compatibility_reasoning
    release_notes := release_notes
    bump_type := bump_type
    sources := sources }

/-- `format_explanation` (src/app.py lines 295-334). -/
def format_explanation (e : ExplanationResult) : String :=
  let lines :=
    ["**Summary:** " ++ e.summary, "",
     "**Release Notes:** " ++ e.release_notes, ""]
    ++ (if e.risk_reasoning ≠ [] then
      ["**Risk Assessment:**"] ++ e.risk_reasoning.map (fun r => "- " ++ r) ++ [""] else [])
    ++ (if e.security_reasoning ≠ [] then
      ["**Security Considerations:**"] ++ e.security_reasoning.map (fun r => "- " ++ r) ++ [""] else [])
    ++ (if e.compatibility_reasoning ≠ [] then
      ["**Compatibility:**"] ++ e.compatibility_reasoning.map (fun r => "- " ++ r) ++ [""] else [])
    ++ (if e.sources ≠ [] then
      ["**Sources:**"] ++ e.sources.map (fun s => "- " ++ s) else [])
  String.intercalate "\n" lines

/-- One conversation-log entry (`st.session_state.messages` element). -/
structure Message where
  role : String
  content : String
deriving DecidableEq

/-- The submit branch of `main` (src/app.py lines 412-452): on a missing
required field an error is displayed (second component) and the log is
untouched; otherwise a user turn and the formatted assistant turn are
appended. Python truthiness: an empty string is missing. The `except`
branch of the Python code is unreachable in the model because the modelled
composer is total. -/
def handle_submit (ecosystem package old_version new_version context : String)
    (messages : List Message) : List Message × Option String :=
  if package = "" ∨ old_version = "" ∨ new_version = "" then
    (messages, some "Please fill in package name, old version, and new version.")
  else
    let user_query :=
      "Explain upgrading " ++ package ++ " from " ++ old_version ++ " to " ++ new_version
      ++ (if context ≠ "" then " (Context: " ++ context ++ ")" else "")
    let explanation := explain_version_choice package old_version new_version ecosystem
      (if context ≠ "" then some context else none)
    let formatted_response := format_explanation explanation
    (messages ++ [⟨"user", user_query⟩, ⟨"assistant", formatted_response⟩], none)

/-! ## Auxiliary facts about the embedded helpers -/

/-- `splitOnDot` never returns the empty list (Python `split` always yields
at least one token). -/
theorem splitOnDot_ne_nil (cs : List Char) : splitOnDot cs ≠ [] := by
  cases cs with
  | nil => simp [splitOnDot]
  | cons c rest =>
    simp only [splitOnDot]
    split
    · simp
    · cases h : splitOnDot rest <;> simp [h]

/-- Splitting a concatenation around an explicit separator splits both
halves. -/
theorem splitOnDot_append (xs ys : List Char) :
    splitOnDot (xs ++ '.' :: ys) = splitOnDot xs ++ splitOnDot ys := by
  induction xs with
  | nil => simp [splitOnDot]
  | cons c rest ih =>
    by_cases hc : c = '.'
    · simp [splitOnDot, hc, ih]
    · have hne := splitOnDot_ne_nil rest
      cases h : splitOnDot rest with
      | nil => exact absurd h hne
      | cons x xs' =>
        simp only [List.cons_append, splitOnDot, if_neg hc, ih, h, List.append_eq]

/-- Lexicographic order on parsed version triples, as the claim about
downgrades states it. -/
def lexLeTriple (a b : Int × Int × Int) : Prop :=
  a.1 < b.1 ∨ (a.1 = b.1 ∧ (a.2.1 < b.2.1 ∨ (a.2.1 = b.2.1 ∧ a.2.2 ≤ b.2.2)))

instance (a b : Int × Int × Int) : Decidable (lexLeTriple a b) := by
  unfold lexLeTriple; infer_instance

/-! ## Claims -/

/-- C1 (counterexample): the claim "if the parsed triple of the new version
is lexicographically ≤ the old one, `get_bump_type` returns unknown" is
false: the triple of "1.5.0" is lexicographically below that of "2.0.0",
yet `get_bump_type "2.0.0" "1.5.0"` is "minor", because the components are
compared independently and the minor component grew. -/
theorem C1_counterexample :
    lexLeTriple (parse_version "1.5.0") (parse_version "2.0.0") ∧
    get_bump_type "2.0.0" "1.5.0" = "minor" ∧
    get_bump_type "2.0.0" "1.5.0" ≠ "unknown" :=
  ⟨by decide, by decide, by decide⟩

/-- C1 (amended): if NO component of the parsed triple of the new version
strictly exceeds the corresponding corresponding component of the triple of the old version
(pointwise ≤, rather than lexicographic ≤), `get_bump_type` returns
"unknown". -/
theorem C1_pointwise_le_unknown (old_version new_version : String)
    (h1 : (parse_version new_version).1 ≤ (parse_version old_version).1)
    (h2 : (parse_version new_version).2.1 ≤ (parse_version old_version).2.1)
    (h3 : (parse_version new_version).2.2 ≤ (parse_version old_version).2.2) :
    get_bump_type old_version new_version = "unknown" := by
  simp only [get_bump_type]
  rw [if_neg (by omega), if_neg (by omega), if_neg (by omega)]

/-- C1 (witness): the amended claim applied at old = "2.1.0",
new = "1.0.0". -/
theorem C1_amended_witness : get_bump_type "2.1.0" "1.0.0" = "unknown" :=
  C1_pointwise_le_unknown "2.1.0" "1.0.0" (by decide) (by decide) (by decide)

/-- C2: `get_bump_type` parses both versions and returns the name of the
first component (major, then minor, then patch) where the new triple
strictly exceeds the old one, and "unknown" when no component strictly
exceeds. -/
theorem C2_first_strict_increase (old_version new_version : String) :
    (get_bump_type old_version new_version = "major" ↔
      (parse_version new_version).1 > (parse_version old_version).1) ∧
    (get_bump_type old_version new_version = "minor" ↔
      ((parse_version new_version).1 ≤ (parse_version old_version).1 ∧
       (parse_version new_version).2.1 > (parse_version old_version).2.1)) ∧
    (get_bump_type old_version new_version = "patch" ↔
      ((parse_version new_version).1 ≤ (parse_version old_version).1 ∧
       (parse_version new_version).2.1 ≤ (parse_version old_version).2.1 ∧
       (parse_version new_version).2.2 > (parse_version old_version).2.2)) ∧
    (get_bump_type old_version new_version = "unknown" ↔
      ((parse_version new_version).1 ≤ (parse_version old_version).1 ∧
       (parse_version new_version).2.1 ≤ (parse_version old_version).2.1 ∧
       (parse_version new_version).2.2 ≤ (parse_version old_version).2.2)) := by
  simp only [get_bump_type]
  split_ifs with h1 h2 h3 <;> refine ⟨?_, ?_, ?_, ?_⟩ <;> simp +decide <;> omega

/-- C3: `parse_version` splits on '.', ignores components beyond the third,
treats missing trailing components as 0, and collapses the whole triple to
(0,0,0) on any component parse failure; with the four concrete examples
from the spec. -/
theorem C3_parse_version_spec :
    parse_version "2.1.0" = (2, 1, 0) ∧
    parse_version "1.5" = (1, 5, 0) ∧
    parse_version "abc" = (0, 0, 0) ∧
    parse_version "1.2.3.4" = (1, 2, 3) ∧
    (∀ s t : String, 3 ≤ (splitOnDot s.data).length →
      parse_version (s ++ "." ++ t) = parse_version s) ∧
    (∀ s : String, (splitOnDot s.data).length ≤ 2 → (parse_version s).2.2 = 0) ∧
    (∀ s : String, (splitOnDot s.data).length ≤ 1 →
      (parse_version s).2.1 = 0 ∧ (parse_version s).2.2 = 0) ∧
    (∀ s : String,
      (pyIntChars ((splitOnDot s.data).getD 0 []) = none ∨
       (1 < (splitOnDot s.data).length ∧
         pyIntChars ((splitOnDot s.data).getD 1 []) = none) ∨
       (2 < (splitOnDot s.data).length ∧
         pyIntChars ((splitOnDot s.data).getD 2 []) = none)) →
      parse_version s = (0, 0, 0)) := by
  refine ⟨by decide, by decide, by decide, by decide, ?_, ?_, ?_, ?_⟩
  · intro s t h
    have hdata : (s ++ "." ++ t).data = s.data ++ '.' :: t.data := by
      show (s.data ++ ['.']) ++ t.data = s.data ++ '.' :: t.data
      simp
    simp only [parse_version]
    rw [hdata, splitOnDot_append]
    rw [List.getD_append _ _ _ _ (by omega),
        List.getD_append _ _ _ _ (by omega),
        List.getD_append _ _ _ _ (by omega),
        if_pos (show 1 < (splitOnDot s.data ++ splitOnDot t.data).length by
          rw [List.length_append]; omega),
        if_pos (show 2 < (splitOnDot s.data ++ splitOnDot t.data).length by
          rw [List.length_append]; omega),
        if_pos (show 1 < (splitOnDot s.data).length by omega),
        if_pos (show 2 < (splitOnDot s.data).length by omega)]
  · intro s h
    simp only [parse_version]
    rw [if_neg (show ¬ 2 < (splitOnDot s.data).length from by omega)]
    rcases h0 : pyIntChars ((splitOnDot s.data).getD 0 []) with _ | a <;>
      rcases h1 : (if 1 < (splitOnDot s.data).length then
          pyIntChars ((splitOnDot s.data).getD 1 []) else some 0) with _ | b <;>
      simp only [h0, h1]
  · intro s h
    simp only [parse_version]
    rw [if_neg (show ¬ 1 < (splitOnDot s.data).length from by omega),
        if_neg (show ¬ 2 < (splitOnDot s.data).length from by omega)]
    rcases h0 : pyIntChars ((splitOnDot s.data).getD 0 []) with _ | a <;>
      simp only [h0] <;> exact ⟨by trivial, by trivial⟩
  · intro s h
    simp only [parse_version]
    rcases h with h | ⟨hl, h⟩ | ⟨hl, h⟩
    · rw [h]
    · rw [if_pos hl, h]
      rcases h0 : pyIntChars ((splitOnDot s.data).getD 0 []) with _ | a <;>
        simp only [h0]
    · rw [if_pos hl, h]
      rcases h0 : pyIntChars ((splitOnDot s.data).getD 0 []) with _ | a <;>
        rcases h1 : (if 1 < (splitOnDot s.data).length then
            pyIntChars ((splitOnDot s.data).getD 1 []) else some 0) with _ | b <;>
        simp only [h0, h1]

/-- C3 (witness): ignoring the component beyond the third, applied at
"1.2.3" with extra component "4". -/
theorem C3_witness : parse_version ("1.2.3" ++ "." ++ "4") = parse_version "1.2.3" :=
  C3_parse_version_spec.2.2.2.2.1 "1.2.3" "4" (by decide)

/-- C9: submitting with an empty package name, old version or new version
reports the validation error and leaves the conversation log unchanged. -/
theorem C9_validation_keeps_log (ecosystem package old_version new_version context : String)
    (messages : List Message)
    (h : package = "" ∨ old_version = "" ∨ new_version = "") :
    handle_submit ecosystem package old_version new_version context messages
      = (messages, some "Please fill in package name, old version, and new version.") := by
  simp only [handle_submit]
  rw [if_pos h]

/-- C9 (witness): an empty package name with a non-empty log. -/
theorem C9_witness :
    handle_submit "pip" "" "1.0.0" "2.0.0" "" [⟨"user", "hi"⟩]
      = ([⟨"user", "hi"⟩], some "Please fill in package name, old version, and new version.") :=
  C9_validation_keeps_log "pip" "" "1.0.0" "2.0.0" "" [⟨"user", "hi"⟩] (Or.inl rfl)

/-- Membership in a conditional singleton list. -/
theorem mem_ite_singleton {α : Type} (t x : α) (c : Prop) [Decidable c] :
    (t ∈ (if c then [x] else [])) ↔ (c ∧ t = x) := by
  split_ifs with h <;> simp [h]

/-- Two strings differing in their first `k` characters are different, even
when their tails are unknown. -/
theorem ne_of_take (k : Nat) {a b : String} (la lb : List Char)
    (ha : a.data.take k = la) (hb : b.data.take k = lb) (hne : la ≠ lb) :
    a ≠ b := by
  intro he
  apply hne
  rw [← ha, ← hb, he]

/-- The context-narrowing loop is a first-match search: it returns the entry
of the first service (declaration order) whose lowercased name occurs in the
lowercased context, included only when that service declares the package,
with no version comparison at all. -/
theorem contextScan_eq_find (package : String) (ctxl : List Char)
    (table : List (String × List (String × String))) :
    contextScan package ctxl table =
      match table.find? (fun e => containsSub (toLowerChars e.1.data) ctxl) with
      | none => []
      | some e =>
        match (e.2).lookup package with
        | some v => [e.1 ++ " uses " ++ v]
        | none => [] := by
  induction table with
  | nil => rfl
  | cons hd tl ih =>
    rcases hd with ⟨service_name, packages⟩
    rw [contextScan]
    cases hb : containsSub (toLowerChars service_name.data) ctxl with
    | false =>
      rw [if_neg (by simp)]
      simp only [List.find?, hb]
      exact ih
    | true =>
      rw [if_pos rfl]
      simp only [List.find?, hb]

/-- C5: with a non-empty context, the compatible list is the first-match
context entry (scanned in table declaration order, stopping at the first
service whose lowercased name occurs in the lowercased context, recorded
without any version comparison when it declares the package) prepended to
the full-scan compatible list; the incompatible list is untouched; and a
service matched by both branches appears twice. -/
theorem C5_context_narrowing (package new_version ctx : String) (h : ctx ≠ "") :
    ((check_compatibility package new_version (some ctx)).incompatible
      = (check_compatibility package new_version none).incompatible) ∧
    ((check_compatibility package new_version (some ctx)).compatible
      = (match COMPATIBILITY_MATRIX.find?
            (fun e => containsSub (toLowerChars e.1.data) (toLowerChars ctx.data)) with
         | none => []
         | some e =>
           match (e.2).lookup package with
           | some v => [e.1 ++ " uses " ++ v]
           | none => [])
        ++ (check_compatibility package new_version none).compatible) ∧
    ((check_compatibility "payments-core" "3.0.0" (some "Checkout Service")).compatible
      = ["Checkout Service uses 3.2.0", "Checkout Service uses 3.2.0"]) := by
  refine ⟨?_, ?_, by decide⟩
  · simp [check_compatibility]
  · simp [check_compatibility, h, contextScan_eq_find]

/-- C5 (witness): the first two components applied at a concrete non-empty
context. -/
theorem C5_witness :
    (check_compatibility "auth-lib" "2.2.0" (some "rolling out to user service")).incompatible
      = (check_compatibility "auth-lib" "2.2.0" none).incompatible :=
  (C5_context_narrowing "auth-lib" "2.2.0" "rolling out to user service" (by decide)).1

/-- C6: the security reasoning of `explain_version_choice` is: when the old
version has known issues, one line listing them, then a resolved line
exactly when the new version has none; when the old version has no issues,
a single no-known-issues line; and independently a warning line whenever
the new version has issues. -/
theorem C6_security_reasoning_cases
    (package old_version new_version ecosystem : String) (context : Option String) :
    ((check_security_issues package old_version new_version).1 ≠ [] →
      (check_security_issues package old_version new_version).2 = [] →
      (explain_version_choice package old_version new_version ecosystem context).security_reasoning
        = ["üîí The old version (" ++ old_version ++ ") has known security vulnerabilities: "
             ++ String.intercalate ", " (check_security_issues package old_version new_version).1,
           "‚úÖ The new version (" ++ new_version ++ ") appears to address these security issues."]) ∧
    ((check_security_issues package old_version new_version).1 ≠ [] →
      (check_security_issues package old_version new_version).2 ≠ [] →
      (explain_version_choice package old_version new_version ecosystem context).security_reasoning
        = ["üîí The old version (" ++ old_version ++ ") has known security vulnerabilities: "
             ++ String.intercalate ", " (check_security_issues package old_version new_version).1,
           "‚ö†Ô∏è WARNING: The new version (" ++ new_version ++ ") has known security issues: "
             ++ String.intercalate ", " (check_security_issues package old_version new_version).2]) ∧
    ((check_security_issues package old_version new_version).1 = [] →
      (check_security_issues package old_version new_version).2 = [] →
      (explain_version_choice package old_version new_version ecosystem context).security_reasoning
        = ["‚úÖ No known security issues found for version " ++ old_version ++ "."]) ∧
    ((check_security_issues package old_version new_version).1 = [] →
      (check_security_issues package old_version new_version).2 ≠ [] →
      (explain_version_choice package old_version new_version ecosystem context).security_reasoning
        = ["‚úÖ No known security issues found for version " ++ old_version ++ ".",
           "‚ö†Ô∏è WARNING: The new version (" ++ new_version ++ ") has known security issues: "
             ++ String.intercalate ", " (check_security_issues package old_version new_version).2]) := by
  refine ⟨fun h1 h2 => ?_, fun h1 h2 => ?_, fun h1 h2 => ?_, fun h1 h2 => ?_⟩ <;>
    · simp only [explain_version_choice]
      simp [h1, h2]

/-- C6 (witness): spec Scenario B — payments-core 3.0.0 → 3.1.0 has one CVE
on the old version and none on the new, so the CVE line and the resolved
line are both emitted. -/
theorem C6_witness :
    (explain_version_choice "payments-core" "3.0.0" "3.1.0" "pip" none).security_reasoning
      = ["üîí The old version (" ++ "3.0.0" ++ ") has known security vulnerabilities: "
           ++ String.intercalate ", " (check_security_issues "payments-core" "3.0.0" "3.1.0").1,
         "‚úÖ The new version (" ++ "3.1.0" ++ ") appears to address these security issues."] :=
  (C6_security_reasoning_cases "payments-core" "3.0.0" "3.1.0" "pip" none).1
    (by decide) (by decide)

/-- A successful association-list lookup means the pair is in the list. -/
theorem lookup_mem {β : Type} {l : List (String × β)} {k : String} {b : β}
    (h : List.lookup k l = some b) : (k, b) ∈ l := by
  induction l with
  | nil => cases h
  | cons hd tl ih =>
    rcases hd with ⟨kh, bh⟩
    rw [List.lookup] at h
    cases hbe : (k == kh) with
    | false =>
      rw [hbe] at h
      exact List.mem_cons_of_mem _ (ih h)
    | true =>
      rw [hbe] at h
      cases h
      exact (beq_iff_eq.mp hbe) ▸ List.mem_cons_self _ _

/-- The full scan collects, per service declaring the package, the
compatible entry when the majors agree and the mismatch entry when the
candidate major is strictly larger; a service whose recorded major is
strictly larger than the candidate contributes to neither component. -/
theorem scanServices_eq (package new_version : String)
    (table : List (String × List (String × String))) :
    scanServices package new_version table =
      (table.filterMap (fun e =>
        match List.lookup package e.2 with
        | some v =>
          if (parse_version new_version).1 = (parse_version v).1
          then some (e.1 ++ " uses " ++ v) else none
        | none => none),
       table.filterMap (fun e =>
        match List.lookup package e.2 with
        | some v =>
          if (parse_version new_version).1 > (parse_version v).1 ∧
             ¬ (parse_version new_version).1 = (parse_version v).1
          then some (e.1 ++ " uses " ++ v ++ " (major version mismatch)") else none
        | none => none)) := by
  induction table with
  | nil => rfl
  | cons hd tl ih =>
    rcases hd with ⟨service_name, packages⟩
    simp only [scanServices, List.filterMap_cons, ih]
    cases hv : List.lookup package packages with
    | none => simp [hv]
    | some v =>
      by_cases he : (parse_version new_version).1 = (parse_version v).1
      · simp [hv, he]
      · by_cases hg : (parse_version new_version).1 > (parse_version v).1
        · simp [hv, he, hg]
        · simp [hv, he, hg]

/-- C4: in the full scan of `check_compatibility`, every service of the
matrix that declares the package is added to the compatible list when the
parsed major of the candidate equals the recorded major of the service, to the
incompatible list (with the mismatch annotation) when the major of the candidate strictly exceeds it, and to neither list when the major of the candidate is strictly lower. -/
theorem C4_full_scan (package new_version : String) :
    ∀ service_name packages v,
      (service_name, packages) ∈ COMPATIBILITY_MATRIX →
      List.lookup package packages = some v →
      ((parse_version new_version).1 = (parse_version v).1 →
        (service_name ++ " uses " ++ v)
          ∈ (check_compatibility package new_version none).compatible) ∧
      ((parse_version new_version).1 > (parse_version v).1 →
        (service_name ++ " uses " ++ v ++ " (major version mismatch)")
          ∈ (check_compatibility package new_version none).incompatible) ∧
      ((parse_version new_version).1 < (parse_version v).1 →
        ¬ (service_name ++ " uses " ++ v)
            ∈ (check_compatibility package new_version none).compatible ∧
        ¬ (service_name ++ " uses " ++ v ++ " (major version mismatch)")
            ∈ (check_compatibility package new_version none).incompatible) := by
  intro service_name packages v hmem hv
  have hca : (check_compatibility package new_version none).compatible
      = (scanServices package new_version COMPATIBILITY_MATRIX).1 := rfl
  have hcb : (check_compatibility package new_version none).incompatible
      = (scanServices package new_version COMPATIBILITY_MATRIX).2 := rfl
  refine ⟨fun heq => ?_, fun hgt => ?_, fun hlt => ?_⟩
  · rw [hca, scanServices_eq]
    exact List.mem_filterMap.mpr ⟨(service_name, packages), hmem, by simp [hv, heq]⟩
  · rw [hcb, scanServices_eq]
    refine List.mem_filterMap.mpr ⟨(service_name, packages), hmem, ?_⟩
    simp only [hv]
    rw [if_pos ⟨hgt, by omega⟩]
  · have hvm := lookup_mem hv
    constructor
    · intro habs
      rw [hca, scanServices_eq] at habs
      obtain ⟨e, he, hfe⟩ := List.mem_filterMap.mp habs
      simp only [COMPATIBILITY_MATRIX] at hmem he
      fin_cases hmem <;> fin_cases hvm <;> fin_cases he <;>
        simp [List.lookup] at hfe <;> omega
    · intro habs
      rw [hcb, scanServices_eq] at habs
      obtain ⟨e, he, hfe⟩ := List.mem_filterMap.mp habs
      simp only [COMPATIBILITY_MATRIX] at hmem he
      fin_cases hmem <;> fin_cases hvm <;> fin_cases he <;>
        simp [List.lookup] at hfe <;> omega

/-- C4 (witness): auth-lib 3.5.0 shares its major with the recorded 3.0.0 of User Service and lands in the compatible list. -/
theorem C4_witness :
    ("User Service" ++ " uses " ++ "3.0.0")
      ∈ (check_compatibility "auth-lib" "3.5.0" none).compatible :=
  ((C4_full_scan "auth-lib" "3.5.0") "User Service"
    [("auth-lib", "3.0.0"), ("logging-lib", "2.0.0")] "3.0.0"
    (by decide) (by decide)).1 (by decide)

/-- C7: the sources list is exactly, in this fixed order: the release-notes
citation iff the looked-up notes differ from the default missing-notes text,
the security-advisories citation iff the old version has known issues, the
incident-reports citation iff the old version has recorded incidents, and
the compatibility-matrix citation iff either compatibility list is
non-empty. -/
theorem C7_sources_exact
    (package old_version new_version ecosystem : String) (context : Option String) :
    ((explain_version_choice package old_version new_version ecosystem context).sources
      = (if lookupReleaseNotes package new_version ≠ "No release notes available." then
           ["Release notes for " ++ package ++ " " ++ new_version] else [])
        ++ (if (check_security_issues package old_version new_version).1 ≠ [] then
           ["Security advisories for " ++ package ++ " " ++ old_version] else [])
        ++ (if (check_internal_incidents package old_version new_version).1 ≠ [] then
           ["Internal incident reports for " ++ package ++ " " ++ old_version] else [])
        ++ (if (check_compatibility package new_version context).compatible ≠ [] ∨
               (check_compatibility package new_version context).incompatible ≠ [] then
           ["Internal compatibility matrix"] else [])) ∧
    (("Release notes for " ++ package ++ " " ++ new_version
        ∈ (explain_version_choice package old_version new_version ecosystem context).sources)
      ↔ lookupReleaseNotes package new_version ≠ "No release notes available.") ∧
    (("Security advisories for " ++ package ++ " " ++ old_version
        ∈ (explain_version_choice package old_version new_version ecosystem context).sources)
      ↔ (check_security_issues package old_version new_version).1 ≠ []) ∧
    (("Internal incident reports for " ++ package ++ " " ++ old_version
        ∈ (explain_version_choice package old_version new_version ecosystem context).sources)
      ↔ (check_internal_incidents package old_version new_version).1 ≠ []) ∧
    (("Internal compatibility matrix"
        ∈ (explain_version_choice package old_version new_version ecosystem context).sources)
      ↔ ((check_compatibility package new_version context).compatible ≠ [] ∨
         (check_compatibility package new_version context).incompatible ≠ [])) := by
  have nRS : ("Release notes for " ++ package ++ " " ++ new_version)
      ≠ ("Security advisories for " ++ package ++ " " ++ old_version) :=
    ne_of_take 1 ['R'] ['S'] rfl rfl (by decide)
  have nRI : ("Release notes for " ++ package ++ " " ++ new_version)
      ≠ ("Internal incident reports for " ++ package ++ " " ++ old_version) :=
    ne_of_take 1 ['R'] ['I'] rfl rfl (by decide)
  have nRM : ("Release notes for " ++ package ++ " " ++ new_version)
      ≠ "Internal compatibility matrix" :=
    ne_of_take 1 ['R'] ['I'] rfl rfl (by decide)
  have nSI : ("Security advisories for " ++ package ++ " " ++ old_version)
      ≠ ("Internal incident reports for " ++ package ++ " " ++ old_version) :=
    ne_of_take 1 ['S'] ['I'] rfl rfl (by decide)
  have nSM : ("Security advisories for " ++ package ++ " " ++ old_version)
      ≠ "Internal compatibility matrix" :=
    ne_of_take 1 ['S'] ['I'] rfl rfl (by decide)
  have nIM : ("Internal incident reports for " ++ package ++ " " ++ old_version)
      ≠ "Internal compatibility matrix" :=
    ne_of_take 10 ("Internal i".data) ("Internal c".data) rfl rfl (by decide)
  have hs : (explain_version_choice package old_version new_version ecosystem context).sources
      = (if lookupReleaseNotes package new_version ≠ "No release notes available." then
           ["Release notes for " ++ package ++ " " ++ new_version] else [])
        ++ (if (check_security_issues package old_version new_version).1 ≠ [] then
           ["Security advisories for " ++ package ++ " " ++ old_version] else [])
        ++ (if (check_internal_incidents package old_version new_version).1 ≠ [] then
           ["Internal incident reports for " ++ package ++ " " ++ old_version] else [])
        ++ (if (check_compatibility package new_version context).compatible ≠ [] ∨
               (check_compatibility package new_version context).incompatible ≠ [] then
           ["Internal compatibility matrix"] else []) := rfl
  refine ⟨hs, ?_, ?_, ?_, ?_⟩ <;>
    · rw [hs]
      simp only [List.mem_append, mem_ite_singleton]
      simp [nRS, nRI, nRM, nSI, nSM, nIM, nRS.symm, nRI.symm, nRM.symm,
        nSI.symm, nSM.symm, nIM.symm]

/-- C8: the summary wording is selected purely by the computed bump type:
"major" and "minor" have their own wording, while both "patch" and
"unknown" produce the same patch wording. -/
theorem C8_summary_by_bump
    (package old_version new_version ecosystem : String) (context : Option String) :
    ((explain_version_choice package old_version new_version ecosystem context).summary
      = (if get_bump_type old_version new_version = "major" then
          "Major version upgrade from " ++ old_version ++ " to " ++ new_version ++ ". This may include breaking changes."
         else if get_bump_type old_version new_version = "minor" then
          "Minor version upgrade from " ++ old_version ++ " to " ++ new_version ++ ". New features and improvements expected."
         else
          "Patch upgrade from " ++ old_version ++ " to " ++ new_version ++ ". Bug fixes and security patches.")) ∧
    (get_bump_type old_version new_version = "patch" ∨
        get_bump_type old_version new_version = "unknown" →
      (explain_version_choice package old_version new_version ecosystem context).summary
        = "Patch upgrade from " ++ old_version ++ " to " ++ new_version ++ ". Bug fixes and security patches.") := by
  have hsum : (explain_version_choice package old_version new_version ecosystem context).summary
      = (if get_bump_type old_version new_version = "major" then
          "Major version upgrade from " ++ old_version ++ " to " ++ new_version ++ ". This may include breaking changes."
         else if get_bump_type old_version new_version = "minor" then
          "Minor version upgrade from " ++ old_version ++ " to " ++ new_version ++ ". New features and improvements expected."
         else
          "Patch upgrade from " ++ old_version ++ " to " ++ new_version ++ ". Bug fixes and security patches.") := rfl
  refine ⟨hsum, fun h => ?_⟩
  rw [hsum,
    if_neg (show ¬ get_bump_type old_version new_version = "major" by
      rcases h with h | h <;> simp [h]),
    if_neg (show ¬ get_bump_type old_version new_version = "minor" by
      rcases h with h | h <;> simp [h])]

/-- C8 (witness): a patch-bump input rendered with the patch wording. -/
theorem C8_witness :
    (explain_version_choice "auth-lib" "1.0.0" "1.0.1" "pip" none).summary
      = "Patch upgrade from " ++ "1.0.0" ++ " to " ++ "1.0.1" ++ ". Bug fixes and security patches." :=
  (C8_summary_by_bump "auth-lib" "1.0.0" "1.0.1" "pip" none).2 (Or.inl (by decide))

/-- C10: for every input, the three reasoning lists are non-empty: the risk
list starts with the bump-type baseline line, the security list starts with
either the vulnerabilities line or the no-known-issues line, and every
compatibility line is one of the compatible/incompatible/no-data lines (the
no-data line filling in when both compatibility lists are empty). -/
theorem C10_reasoning_nonempty
    (package old_version new_version ecosystem : String) (context : Option String) :
    (explain_version_choice package old_version new_version ecosystem context).risk_reasoning ≠ [] ∧
    (explain_version_choice package old_version new_version ecosystem context).security_reasoning ≠ [] ∧
    (explain_version_choice package old_version new_version ecosystem context).compatibility_reasoning ≠ [] ∧
    (explain_version_choice package old_version new_version ecosystem context).risk_reasoning.head?
      = some (if get_bump_type old_version new_version = "major" then
          "This is a major version upgrade, which typically includes breaking changes. Review the release notes carefully and plan for migration."
        else if get_bump_type old_version new_version = "minor" then
          "This is a minor version upgrade, which should be backward compatible but may introduce new features."
        else
          "This is a patch upgrade, which should be low risk and focused on bug fixes.") ∧
    ((explain_version_choice package old_version new_version ecosystem context).security_reasoning.head?
        = some ("üîí The old version (" ++ old_version ++ ") has known security vulnerabilities: "
            ++ String.intercalate ", " (check_security_issues package old_version new_version).1) ∨
     (explain_version_choice package old_version new_version ecosystem context).security_reasoning.head?
        = some ("‚úÖ No known security issues found for version " ++ old_version ++ ".")) ∧
    (∀ x ∈ (explain_version_choice package old_version new_version ecosystem context).compatibility_reasoning,
      x = "‚úÖ Compatible versions found: "
            ++ String.intercalate ", " (check_compatibility package new_version context).compatible ∨
      x = "‚ö†Ô∏è Potential compatibility concerns: "
            ++ String.intercalate ", " (check_compatibility package new_version context).incompatible ∨
      x = "‚ÑπÔ∏è No compatibility data found for other services using " ++ package ++ ".") := by
  have hsec : (explain_version_choice package old_version new_version ecosystem context).security_reasoning
      = (if (check_security_issues package old_version new_version).1 ≠ [] then
          ["üîí The old version (" ++ old_version ++ ") has known security vulnerabilities: "
             ++ String.intercalate ", " (check_security_issues package old_version new_version).1]
          ++ (if (check_security_issues package old_version new_version).2 = [] then
            ["‚úÖ The new version (" ++ new_version ++ ") appears to address these security issues."] else [])
        else
          ["‚úÖ No known security issues found for version " ++ old_version ++ "."])
        ++ (if (check_security_issues package old_version new_version).2 ≠ [] then
          ["‚ö†Ô∏è WARNING: The new version (" ++ new_version ++ ") has known security issues: "
             ++ String.intercalate ", " (check_security_issues package old_version new_version).2] else []) := rfl
  have hcompat : (explain_version_choice package old_version new_version ecosystem context).compatibility_reasoning
      = (if (check_compatibility package new_version context).compatible ≠ [] then
          ["‚úÖ Compatible versions found: "
             ++ String.intercalate ", " (check_compatibility package new_version context).compatible] else [])
        ++ (if (check_compatibility package new_version context).incompatible ≠ [] then
          ["‚ö†Ô∏è Potential compatibility concerns: "
             ++ String.intercalate ", " (check_compatibility package new_version context).incompatible] else [])
        ++ (if (check_compatibility package new_version context).compatible = [] ∧
               (check_compatibility package new_version context).incompatible = [] then
          ["‚ÑπÔ∏è No compatibility data found for other services using " ++ package ++ "."] else []) := rfl
  refine ⟨?_, ?_, ?_, rfl, ?_, ?_⟩
  · intro h
    have h4 : (explain_version_choice package old_version new_version ecosystem context).risk_reasoning.head?
        = some (if get_bump_type old_version new_version = "major" then
            "This is a major version upgrade, which typically includes breaking changes. Review the release notes carefully and plan for migration."
          else if get_bump_type old_version new_version = "minor" then
            "This is a minor version upgrade, which should be backward compatible but may introduce new features."
          else
            "This is a patch upgrade, which should be low risk and focused on bug fixes.") := rfl
    rw [h] at h4
    exact Option.noConfusion h4
  · rw [hsec]
    by_cases hoi : (check_security_issues package old_version new_version).1 = []
    · rw [if_neg (not_not_intro hoi)]
      simp
    · rw [if_pos hoi]
      simp
  · rw [hcompat]
    by_cases hc1 : (check_compatibility package new_version context).compatible = [] <;>
      by_cases hc2 : (check_compatibility package new_version context).incompatible = [] <;>
      simp [hc1, hc2]
  · by_cases hoi : (check_security_issues package old_version new_version).1 = []
    · right
      rw [hsec, if_neg (not_not_intro hoi)]
      rfl
    · left
      rw [hsec, if_pos hoi]
      rfl
  · intro x hx
    rw [hcompat] at hx
    simp only [List.mem_append, mem_ite_singleton] at hx
    rcases hx with ((⟨_, rfl⟩ | ⟨_, rfl⟩) | ⟨_, rfl⟩)
    · exact Or.inl rfl
    · exact Or.inr (Or.inl rfl)
    · exact Or.inr (Or.inr rfl)

end DepBot
